import Mathlib

/-!
Verification of the config-ro library (src/lib.rs) against its specification.

The library keeps one process-wide table `CONFIGS : RwLock<HashMap<String, Value>>`.
`Config::new(name)` checks for an entry under a read lock; if absent it takes the
write lock and inserts `from_name(name)`, where `from_name` reads and parses
`configs/{name}.json` and panics on a missing file or invalid JSON.
`Config::get::<T>(path)` takes the read lock, looks up the handle's name, walks the
document along `path.split('.')` via `Value::get`, and deserializes the terminal
node with `serde_json::from_value`, returning `Option<T>`.

The embedding below is the sequential semantics of this code.  A Rust `RwLock`
becomes poisoned when a panic unwinds while the write guard is held; afterwards
every `.read().unwrap()` and `.write().unwrap()` panics with a `PoisonError`.
Since `from_name(name)` is evaluated while the write guard is live (it is an
argument of `configs.insert(...)`), a failed load poisons the global lock.  The
state therefore carries the table together with the poison flag, and every
operation is a function from state to (result or panic, next state): a panic
unwinds out of the call but the global state persists.

`from_name` itself performs file I/O, so it enters the model as an explicit
parameter `loader : String → Option Value`, with `none` standing for either of
its two panics (file unreadable, invalid JSON).  JSON numbers are modelled as
integers; no claim involves floating-point values.
-/

/-- JSON tree as in `serde_json::Value`.  Objects are association lists of
unique keys; `num` carries an integer (floating-point numbers are outside the
scope of every claim). -/
inductive Value where
  | null
  | bool (b : Bool)
  | num (n : Int)
  | str (s : String)
  | arr (elems : List Value)
  | obj (fields : List (String × Value))

/-- Key lookup in an association list, as `HashMap::get` / `serde_json::Map::get`. -/
def lookupKV : List (String × Value) → String → Option Value
  | [], _ => none
  | (k, v) :: rest, key => if k = key then some v else lookupKV rest key

/-- Key insert-or-replace, as `HashMap::insert`. -/
def insertKV : List (String × Value) → String → Value → List (String × Value)
  | [], key, v => [(key, v)]
  | (k, w) :: rest, key, v =>
    if k = key then (key, v) :: rest else (k, w) :: insertKV rest key v

/-- `serde_json::Value::get` with a string index: a lookup that succeeds only on
an object node containing the key, and is `none` on every other node kind. -/
def Value.getKey : Value → String → Option Value
  | .obj fields, key => lookupKV fields key
  | _, _ => none

/-- Rust `str::split('.')` on the character list: always at least one segment,
empty segments kept for leading, trailing and consecutive dots. -/
def splitDot : List Char → List (List Char)
  | [] => [[]]
  | c :: rest =>
    if c = '.' then [] :: splitDot rest
    else
      match splitDot rest with
      | [] => [[c]]
      | t :: ts => (c :: t) :: ts

/-- The segments of `path.split('.')` as used by `Config::get`. -/
def pathSegments (p : String) : List String :=
  (splitDot p.toList).map (fun cs => String.mk cs)

/-- The loop of `Config::get` (src/lib.rs lines 104-110): starting from the
root, step with `Value::get` on each segment, returning `none` as soon as a
step fails, otherwise the terminal node. -/
def resolvePath : Value → List String → Option Value
  | v, [] => some v
  | v, key :: rest =>
    match v.getKey key with
    | some next => resolvePath next rest
    | none => none

/-- A panic unwinding out of a library call: `poisoned` is the `unwrap` of a
poisoned lock (`PoisonError`), `loadFailure n` is the panic of `from_name n`
(missing file or invalid JSON). -/
inductive PanicKind where
  | poisoned
  | loadFailure (name : String)

/-- The process-wide state: the `CONFIGS` map together with the poison flag of
the `RwLock` guarding it. -/
structure CacheState where
  table : List (String × Value)
  poisoned : Bool

/-- The handle type: `struct Config \x7b name: String \x7d` — it carries only the
source name (src/lib.rs lines 39-41). -/
structure Config where
  name : String

/-- `Config::new` (src/lib.rs lines 61-73), sequential semantics.  Reading a
poisoned lock panics.  Otherwise check for an entry; on a hit return the handle
at once.  On a miss, `from_name` (the `loader`) runs while the write guard is
held: success inserts the document, failure panics and — unwinding past the
live write guard — poisons the lock while inserting nothing. -/
def Config.new (loader : String → Option Value) (name : String) (st : CacheState) :
    Except PanicKind Config × CacheState :=
  if st.poisoned then
    (.error .poisoned, st)
  else
    let has := (lookupKV st.table name).isSome
    if has then
      (.ok { name := name }, st)
    else
      match loader name with
      | some doc =>
        (.ok { name := name }, { table := insertKV st.table name doc, poisoned := st.poisoned })
      | none =>
        (.error (.loadFailure name), { table := st.table, poisoned := true })

/-- `Config::get` (src/lib.rs lines 100-113), sequential semantics.  Reading a
poisoned lock panics.  An absent entry returns `none` (the `?` operator).
Otherwise walk the path segments from the root and deserialize the terminal
node; `deser` stands for `serde_json::from_value::<T>` with `.ok()` applied.
The state is returned unchanged on every path: the function holds only a read
guard and performs no write. -/
def Config.get {α : Type} (deser : Value → Option α) (cfg : Config) (path : String)
    (st : CacheState) : Except PanicKind (Option α) × CacheState :=
  if st.poisoned then
    (.error .poisoned, st)
  else
    match lookupKV st.table cfg.name with
    | none => (.ok none, st)
    | some root => (.ok ((resolvePath root (pathSegments path)).bind deser), st)

/-- `serde_json::from_value::<i64>` composed with `.ok()`: succeeds exactly on a
number node. -/
def deserInt : Value → Option Int
  | .num n => some n
  | _ => none

/-- `serde_json::from_value::<String>` composed with `.ok()`: succeeds exactly on
a string node. -/
def deserString : Value → Option String
  | .str s => some s
  | _ => none

/-- Follows the spec's words (§4.2) for the path walk: "start the cursor at the
Document's root node; for each segment, require the current node to be an
object and to contain that segment as a key — if either condition fails,
terminate and return the not-found result", else the terminal node. -/
def specPathWalk : List String → Value → Option Value
  | [], v => some v
  | seg :: rest, v =>
    match v with
    | .obj fields =>
      match lookupKV fields seg with
      | some next => specPathWalk rest next
      | none => none
    | _ => none

/-- Whether a node is an object containing the empty-string key. -/
def objHasEmptyKey : Value → Bool
  | .obj fields => (lookupKV fields "").isSome
  | _ => false

/-- A loader for which every source fails (missing/unparsable content). -/
def loaderNone : String → Option Value := fun _ => none

/-- A loader for which source "y" is available and everything else fails. -/
def loaderY : String → Option Value :=
  fun n => if n = "y" then some (.obj [("k", .num 2)]) else none

/-- A loader for which every source is available. -/
def loaderAll : String → Option Value := fun _ => some (.obj [])

/-- The empty starting state: empty table, lock healthy. -/
def st0 : CacheState := { table := [], poisoned := false }

/-- The document built from the JSON text with key "a" mapping to an object
with key "b" mapping to 7. -/
def docAB : Value := .obj [("a", .obj [("b", .num 7)])]

/-- A state whose table caches `docAB` under the name "c". -/
def stAB : CacheState := { table := [("c", docAB)], poisoned := false }

/-- A state caching an object with key "k" mapping to 2 under the name "y". -/
def stY : CacheState := { table := [("y", .obj [("k", .num 2)])], poisoned := false }

/-- A state caching, under the name "e", an object whose empty-string key holds
an object whose empty-string key holds 5. -/
def stE : CacheState :=
  { table := [("e", .obj [("", .obj [("", .num 5)])])], poisoned := false }

/-- Helper: looking up the key just inserted by `insertKV` yields the inserted
value. -/
theorem lookupKV_insertKV (l : List (String × Value)) (k : String) (v : Value) :
    lookupKV (insertKV l k v) k = some v := by
  induction l with
  | nil => simp [insertKV, lookupKV]
  | cons hd tl ih =>
    obtain ⟨k0, v0⟩ := hd
    by_cases h : k0 = k
    · simp [insertKV, lookupKV, h]
    · simp [insertKV, lookupKV, h, ih]

/-- Helper: `insertKV` with a fresh key leaves every other key's lookup
unchanged. -/
theorem lookupKV_insertKV_ne (l : List (String × Value)) (k k2 : String) (v : Value)
    (h : k ≠ k2) : lookupKV (insertKV l k v) k2 = lookupKV l k2 := by
  induction l with
  | nil => simp [insertKV, lookupKV, h]
  | cons hd tl ih =>
    obtain ⟨k0, v0⟩ := hd
    by_cases h0 : k0 = k
    · subst h0
      simp [insertKV, lookupKV, h]
    · simp [insertKV, lookupKV, h0, ih]

/-- Helper: the code's path loop equals the walk written from the spec's words:
`Value::get` succeeds exactly when the current node is an object containing the
segment as a key. -/
theorem resolvePath_eq_specPathWalk (segs : List String) (v : Value) :
    resolvePath v segs = specPathWalk segs v := by
  induction segs generalizing v with
  | nil => rfl
  | cons s rest ih =>
    cases v with
    | obj fields =>
      simp only [resolvePath, specPathWalk, Value.getKey]
      cases lookupKV fields s with
      | none => rfl
      | some next => exact ih next
    | null => rfl
    | bool b => rfl
    | num n => rfl
    | str s2 => rfl
    | arr elems => rfl

/-- Claim C1 (code_bug evidence): a loader failure for the fresh name "x" is
surfaced to the caller, but it poisons the lock, so a subsequent `Config::new`
for the unrelated name "y" — which on the initial state would have succeeded —
now panics with a `PoisonError` instead of behaving as without the failed
call. -/
theorem c1_poisoning_breaks_other_names :
    (Config.new loaderY "x" st0).1 = .error (.loadFailure "x") ∧
    (Config.new loaderY "x" st0).2.poisoned = true ∧
    (Config.new loaderY "y" st0).1 = .ok { name := "y" } ∧
    (Config.new loaderY "y" (Config.new loaderY "x" st0).2).1 = .error .poisoned :=
  ⟨rfl, rfl, rfl, rfl⟩

/-- Claim C2 (code_bug evidence): the failed load of "missing" propagates the
failure and inserts no entry (the table is still empty), but a subsequent
acquire of the same name with the source now available panics on the poisoned
lock without ever reaching the loader, instead of retrying the load. -/
theorem c2_no_retry_after_failure :
    (Config.new loaderNone "missing" st0).1 = .error (.loadFailure "missing") ∧
    (Config.new loaderNone "missing" st0).2.table = [] ∧
    (Config.new loaderAll "missing" (Config.new loaderNone "missing" st0).2).1 =
      .error .poisoned :=
  ⟨rfl, rfl, rfl⟩

/-- Claim C3: when the table already holds an entry for the name, `Config::new`
returns a handle at once, leaves the state unchanged, and its result does not
depend on the loader at all; consequently `get` on a handle bound to that name
is unaffected by re-acquiring with any (changed) loader. -/
theorem c3_acquire_idempotent_on_hit (st : CacheState) (n : String) (v : Value)
    (loader loader2 : String → Option Value)
    (hin : lookupKV st.table n = some v) (hp : st.poisoned = false) :
    Config.new loader n st = (.ok { name := n }, st) ∧
    Config.new loader2 n st = Config.new loader n st ∧
    ∀ (α : Type) (deser : Value → Option α) (path : String),
      Config.get deser { name := n } path (Config.new loader2 n st).2 =
        Config.get deser { name := n } path st := by
  have h1 : Config.new loader n st = (.ok { name := n }, st) := by
    simp [Config.new, hp, hin]
  have h2 : Config.new loader2 n st = (.ok { name := n }, st) := by
    simp [Config.new, hp, hin]
  refine ⟨h1, h2.trans h1.symm, ?_⟩
  intro α deser path
  rw [h2]

/-- Claim C3 witness at a concrete state holding an entry for "n". -/
theorem c3_acquire_idempotent_on_hit_witness :
    Config.new loaderNone "n" { table := [("n", Value.num 1)], poisoned := false } =
      (.ok { name := "n" }, { table := [("n", Value.num 1)], poisoned := false }) ∧
    Config.get deserInt { name := "n" }
        "" (Config.new loaderAll "n" { table := [("n", Value.num 1)], poisoned := false }).2 =
      Config.get deserInt { name := "n" }
        "" { table := [("n", Value.num 1)], poisoned := false } :=
  ⟨(c3_acquire_idempotent_on_hit { table := [("n", Value.num 1)], poisoned := false }
      "n" (Value.num 1) loaderNone loaderAll rfl rfl).1,
   (c3_acquire_idempotent_on_hit { table := [("n", Value.num 1)], poisoned := false }
      "n" (Value.num 1) loaderNone loaderAll rfl rfl).2.2 Int deserInt ""⟩

/-- Claim C4: on a healthy state holding a document for the handle's name,
`Config::get` splits the path on dots and behaves exactly as the walk written
from the spec's words — each segment requires the current node to be an object
containing it, any failure yields the not-found result, and the terminal node
is fed to the deserializer, whose failure also yields `none`, so a missing key
and a type mismatch are indistinguishable in the result. -/
theorem c4_get_follows_spec_walk (st : CacheState) (cfg : Config) (root : Value)
    {α : Type} (deser : Value → Option α) (path : String)
    (hin : lookupKV st.table cfg.name = some root) (hp : st.poisoned = false) :
    Config.get deser cfg path st =
      (.ok ((specPathWalk (pathSegments path) root).bind deser), st) := by
  simp [Config.get, hp, hin, resolvePath_eq_specPathWalk]

/-- Claim C4 witness on the concrete document from claim C5. -/
theorem c4_get_follows_spec_walk_witness :
    Config.get deserInt { name := "c" } "a.b" stAB =
      (.ok ((specPathWalk (pathSegments "a.b") docAB).bind deserInt), stAB) :=
  c4_get_follows_spec_walk stAB { name := "c" } docAB deserInt "a.b" rfl rfl

/-- Claim C5: on the document built from JSON object a ↦ (object b ↦ 7), `get`
at "a.b" requesting an integer returns 7, requesting a string returns not-found
(type mismatch), and at "a.c" returns not-found (missing key). -/
theorem c5_path_round_trip :
    (Config.get deserInt { name := "c" } "a.b" stAB).1 = .ok (some 7) ∧
    (Config.get deserString { name := "c" } "a.b" stAB).1 = .ok none ∧
    (Config.get deserInt { name := "c" } "a.c" stAB).1 = .ok none :=
  ⟨rfl, rfl, rfl⟩

/-- Claim C6 (code_bug evidence): the entry for "y" survives a failed
`Config::new("x")` untouched, yet the result of `get` on the handle bound to
"y" changes from 2 to a `PoisonError` panic, because the failure on "x"
poisoned the shared lock. -/
theorem c6_failure_on_x_affects_y :
    (Config.get deserInt { name := "y" } "k" stY).1 = .ok (some 2) ∧
    (Config.new loaderNone "x" stY).1 = .error (.loadFailure "x") ∧
    lookupKV (Config.new loaderNone "x" stY).2.table "y" = some (.obj [("k", .num 2)]) ∧
    (Config.get deserInt { name := "y" } "k" (Config.new loaderNone "x" stY).2).1 =
      .error .poisoned :=
  ⟨rfl, rfl, rfl, rfl⟩

/-- Claim C7: an empty path segment is an ordinary lookup of the key "" — the
walk steps through `Value::get` with the empty string, which fails exactly when
the current node is not an object containing the key ""; splitting keeps the
empty segments of consecutive, leading and trailing dots; and on a document
that does contain "" keys the lookup even succeeds (path "." reaching 5). -/
theorem c7_empty_segments_literal (v : Value) (rest : List String) :
    resolvePath v ("" :: rest) = (v.getKey "").bind (fun w => resolvePath w rest) ∧
    (v.getKey "" = none ↔ objHasEmptyKey v = false) ∧
    pathSegments "a..b" = ["a", "", "b"] ∧
    pathSegments ".a" = ["", "a"] ∧
    pathSegments "a." = ["a", ""] ∧
    (Config.get deserInt { name := "e" } "." stE).1 = .ok (some 5) := by
  refine ⟨?_, ?_, rfl, rfl, rfl, rfl⟩
  · cases h : v.getKey "" <;> simp [resolvePath, h]
  · cases v with
    | obj fields => cases h : lookupKV fields "" <;> simp [Value.getKey, objHasEmptyKey, h]
    | null => simp [Value.getKey, objHasEmptyKey]
    | bool b => simp [Value.getKey, objHasEmptyKey]
    | num n => simp [Value.getKey, objHasEmptyKey]
    | str s => simp [Value.getKey, objHasEmptyKey]
    | arr elems => simp [Value.getKey, objHasEmptyKey]

/-- Claim C8: `Config::get` is read-only — for every deserializer, handle, path
and state (poisoned or not, entry present or not) the state it returns is the
state it was given, so the table and every cached document are unchanged. -/
theorem c8_get_read_only {α : Type} (deser : Value → Option α) (cfg : Config)
    (path : String) (st : CacheState) :
    (Config.get deser cfg path st).2 = st := by
  unfold Config.get
  split
  · rfl
  · split <;> rfl

/-- Claim C9: `Config::new` never checks the name for non-emptiness — on a
healthy state with no entry for "" and a loader that resolves "", the empty
name is loaded and cached under the key "" exactly like any other name, and the
inserted entry is found under "" afterwards. -/
theorem c9_empty_name_accepted (st : CacheState) (loader : String → Option Value)
    (v : Value) (hp : st.poisoned = false) (habs : lookupKV st.table "" = none)
    (hl : loader "" = some v) :
    Config.new loader "" st =
      (.ok { name := "" }, { table := insertKV st.table "" v, poisoned := false }) ∧
    lookupKV (insertKV st.table "" v) "" = some v := by
  constructor
  · simp [Config.new, hp, habs, hl]
  · exact lookupKV_insertKV st.table "" v

/-- Claim C9 witness on the empty state with a loader resolving every name. -/
theorem c9_empty_name_accepted_witness :
    Config.new loaderAll "" st0 =
      (.ok { name := "" }, { table := insertKV st0.table "" (.obj []), poisoned := false }) ∧
    lookupKV (insertKV st0.table "" (.obj [])) "" = some (.obj []) :=
  c9_empty_name_accepted st0 loaderAll (.obj []) rfl rfl rfl

/-- Claim C10: a `Config` handle carries only its name, so two handles with
equal names are equal and `get` returns identical results through them for
every deserializer, path and state; determinism of `get` is immediate since it
is a function of its arguments. -/
theorem c10_handles_interchangeable (c1 c2 : Config) (h : c1.name = c2.name) :
    c1 = c2 ∧
    ∀ (α : Type) (deser : Value → Option α) (path : String) (st : CacheState),
      Config.get deser c1 path st = Config.get deser c2 path st := by
  obtain ⟨n1⟩ := c1
  obtain ⟨n2⟩ := c2
  have h2 : n1 = n2 := h
  subst h2
  exact ⟨rfl, fun α deser path st => rfl⟩

/-- Claim C10 witness at two concrete handles with the same name. -/
theorem c10_handles_interchangeable_witness :
    ({ name := "a" } : Config) = { name := "a" } ∧
    Config.get deserInt { name := "a" } "k" st0 =
      Config.get deserInt { name := "a" } "k" st0 :=
  ⟨(c10_handles_interchangeable { name := "a" } { name := "a" } rfl).1,
   (c10_handles_interchangeable { name := "a" } { name := "a" } rfl).2
     Int deserInt "k" st0⟩
